import Mathlib

/-!
Verification of the audio query processor's translation pipeline and
evaluation harness, shallowly embedded from the Python sources
(`main.py`, `utils.py`, `evals.py`, `prompts.py`).

Modelling conventions:
* JSON-decoded Python values are the inductive `Json` (strings, numbers as
  rationals, arrays, objects as ordered association lists — Python dicts
  preserve insertion order).
* The OpenAI generation service is an oracle `Prompt → GenContent`: the
  rendered Jinja prompt is represented structurally by the template
  identifier together with the three values substituted into it (equal
  structures render to equal strings).
* `columns.json` may be opened several times during a run; the contents the
  process observes at its k-th open are `file k` for a parameter
  `file : Nat → Catalog`.
* Python exceptions raised by `json.loads` (invalid JSON), dict indexing
  (missing key) and iteration of a non-list are modelled as `Except`
  errors of type `SynthesisError`, propagated to the caller.
* Each top-level operation also returns an `Effects` record logging how
  many times `columns.json` was opened, which prompts were sent to the
  generation service (in order), and how many times the Weave store was
  called.
-/

/-- JSON-decoded values (also the Python values substituted into prompts):
strings, numbers (modelled as rationals), arrays, and objects as ordered
association lists. -/
inductive Json where
  | str (s : String)
  | num (q : Rat)
  | arr (elems : List Json)
  | obj (fields : List (String × Json))

mutual

/-- Structural equality test on JSON values, written by hand (automatic
derivation of decidable equality does not handle the nested lists). -/
def Json.beq : Json → Json → Bool
  | .str a, .str b => decide (a = b)
  | .num a, .num b => decide (a = b)
  | .arr a, .arr b => Json.beqList a b
  | .obj a, .obj b => Json.beqObj a b
  | _, _ => false

/-- Pointwise structural equality test on lists of JSON values. -/
def Json.beqList : List Json → List Json → Bool
  | [], [] => true
  | x :: xs, y :: ys => Json.beq x y && Json.beqList xs ys
  | _, _ => false

/-- Pointwise structural equality test on JSON object field lists. -/
def Json.beqObj : List (String × Json) → List (String × Json) → Bool
  | [], [] => true
  | (k, v) :: xs, (k', v') :: ys => decide (k = k') && Json.beq v v' && Json.beqObj xs ys
  | _, _ => false

end

/-- The hand-written equality test decides propositional equality. -/
theorem Json.beq_correct : ∀ a b : Json, (Json.beq a b = true ↔ a = b) := by
  have main := Json.beq.induct
    (motive_1 := fun a b => (Json.beq a b = true ↔ a = b))
    (motive_2 := fun a b => (Json.beqObj a b = true ↔ a = b))
    (motive_3 := fun a b => (Json.beqList a b = true ↔ a = b))
  intro a b
  apply main
  · intro a b
    simp [Json.beq]
  · intro a b
    simp [Json.beq]
  · intro a b ih
    simpa [Json.beq] using ih
  · intro a b ih
    simpa [Json.beq] using ih
  · intro t x h1 h2 h3 h4
    constructor
    · intro hbeq
      exfalso
      cases t <;> cases x <;> simp [Json.beq] at hbeq <;> first
        | exact h1 _ _ rfl rfl
        | exact h2 _ _ rfl rfl
        | exact h3 _ _ rfl rfl
        | exact h4 _ _ rfl rfl
    · intro he
      exfalso
      cases he
      cases t
      · exact h1 _ _ rfl rfl
      · exact h2 _ _ rfl rfl
      · exact h3 _ _ rfl rfl
      · exact h4 _ _ rfl rfl
  · simp [Json.beqList]
  · intro x xs y ys ih1 ih2
    simp [Json.beqList, ih1, ih2]
  · intro t x h1 h2
    constructor
    · intro hbeq
      exfalso
      cases t <;> cases x <;> simp [Json.beqList] at hbeq
      · exact h1 rfl rfl
      · exact h2 _ _ _ _ rfl rfl
    · intro he
      exfalso
      cases he
      cases t
      · exact h1 rfl rfl
      · exact h2 _ _ _ _ rfl rfl
  · simp [Json.beqObj]
  · intro k v xs k' v' ys ih1 ih2
    simp [Json.beqObj, ih1, ih2, Prod.ext_iff]
  · intro t x h1 h2
    constructor
    · intro hbeq
      exfalso
      cases t <;> cases x <;> simp [Json.beqObj] at hbeq
      · exact h1 rfl rfl
      · rename_i p ps q qs
        exact h2 p.1 p.2 ps q.1 q.2 qs (by simp) (by simp)
    · intro he
      exfalso
      cases he
      cases t
      · exact h1 rfl rfl
      · rename_i p ps
        exact h2 p.1 p.2 ps p.1 p.2 ps (by simp) (by simp)

instance : DecidableEq Json :=
  fun a b => decidable_of_iff (Json.beq a b = true) (Json.beq_correct a b)

/-- Decidable equality of `Except` results, used to evaluate runs of the
embedded pipeline on concrete inputs. -/
instance {ε α : Type} [DecidableEq ε] [DecidableEq α] : DecidableEq (Except ε α) :=
  fun a b =>
    match a, b with
    | .error x, .error y =>
      if h : x = y then isTrue (by rw [h])
      else isFalse (fun hh => by injection hh with h1; exact h h1)
    | .ok x, .ok y =>
      if h : x = y then isTrue (by rw [h])
      else isFalse (fun hh => by injection hh with h1; exact h h1)
    | .error _, .ok _ => isFalse (fun h => Except.noConfusion h)
    | .ok _, .error _ => isFalse (fun h => Except.noConfusion h)

/-- First value bound to key `k` in an object's field list (Python dict lookup). -/
def lookupKey : List (String × Json) → String → Option Json
  | [], _ => none
  | (k', v) :: rest, k => if k' = k then some v else lookupKey rest k

/-- Errors raised while interpreting a generation-service response:
`notJson` models `json.JSONDecodeError` from `json.loads`, `missingKey`
models `KeyError` from `response[key]`, and `badShape` models `TypeError`
from indexing or iterating a value of the wrong type. -/
inductive SynthesisError where
  | notJson
  | missingKey (k : String)
  | badShape
  deriving DecidableEq

/-- Python `j[k]`: the value at key `k` of an object, `KeyError` when the key
is absent, `TypeError` when `j` is not a dict. -/
def getKey (j : Json) (k : String) : Except SynthesisError Json :=
  match j with
  | .obj fs =>
    match lookupKey fs k with
    | some v => .ok v
    | none => .error (.missingKey k)
  | _ => .error .badShape

/-- Iterating a decoded JSON value as a Python list; `TypeError` when it is
not an array. -/
def asArr (j : Json) : Except SynthesisError (List Json) :=
  match j with
  | .arr es => .ok es
  | _ => .error .badShape

/-- The three Jinja templates of `prompts.py`. -/
inductive PromptTemplate where
  | COLUMN_SELECTION_PROMPT
  | QUERY_PROMPT
  | SORT_BY_PROMPT
  deriving DecidableEq

/-- A rendered prompt, represented structurally: the template plus the three
values substituted for `\x7b\x7bquery\x7d\x7d`,
`\x7b\x7bcolumns_with_description\x7d\x7d` and `\x7b\x7bcolumns\x7d\x7d`
(Jinja stringifies the substituted Python value, so equal structures render
to equal prompt strings). -/
structure Prompt where
  template : PromptTemplate
  query : String
  columns_with_description : Json
  columns : Json
  deriving DecidableEq

/-- What the generation service's `message.content` holds once `json.loads`
is applied: either text that is not valid JSON, or a parsed JSON value. -/
inductive GenContent where
  | invalid
  | parsed (j : Json)
  deriving DecidableEq

/-- The generation service as a deterministic black box from rendered
prompts to response contents. -/
abbrev Oracle := Prompt → GenContent

/-- Contents of `columns.json`: field name → description, in file order. -/
abbrev Catalog := List (String × String)

/-- A row of the Weave result table. -/
abbrev Row := List (String × Json)

/-- The backing Weave store: given a filter and a sort specification it
returns rows, or fails (network error, filter rejected, ...). -/
abbrev Backend := Json → Json → Except String (List Row)

/-- Observable side effects of a run: how many times `columns.json` was
opened, the prompts sent to the generation service in order, and how many
times the Weave store was called. -/
structure Effects where
  fileReads : Nat
  prompts : List Prompt
  weaveCalls : Nat
  deriving DecidableEq

/-- Embeds `utils.get_fields_description` (utils.py:207-223): renders one
block per catalog entry, in catalog iteration order, by string
concatenation into an accumulator. -/
def get_fields_description (catalog : Catalog) : String :=
  catalog.foldl
    (fun acc p => acc ++ "Column: " ++ p.1 ++ "\nDescription: " ++ p.2 ++ "\n\n") ""

/-- Embeds `evals.get_fields_description` (evals.py:21-31): returns the
decoded dict itself (as a Json object), not a rendered string. -/
def evals_get_fields_description (catalog : Catalog) : Json :=
  Json.obj (catalog.map (fun p => (p.1, Json.str p.2)))

/-- Embeds `utils.generate_response` (utils.py:225-256): render the prompt,
call the service, and `json.loads` the content (raising on invalid JSON,
modelled as `Except.error .notJson`). -/
def generate_response (o : Oracle) (query : String) (desc : Json)
    (cols : Json) (t : PromptTemplate) : Except SynthesisError Json :=
  match o ⟨t, query, desc, cols⟩ with
  | .invalid => .error .notJson
  | .parsed j => .ok j

/-- A `generate_response` call immediately indexed by a key, as every call
site does (`generate_response(...)["columns"]` and similar). -/
def genKey (o : Oracle) (p : Prompt) (k : String) : Except SynthesisError Json :=
  match o p with
  | .invalid => .error .notJson
  | .parsed j => getKey j k

/-- Python membership test `column in allowed_columns` for a decoded value
against a list of catalog keys. -/
def pyIn (c : Json) (allowed : List String) : Bool :=
  allowed.any (fun a => decide (c = Json.str a))

/-- Embeds the validation pass of `main.process_audio_file`
(main.py:161-169): keep, in order, exactly the returned names present in
the allowed catalog keys. -/
def filterColumns (cols : List Json) (allowed : List String) : List Json :=
  cols.filter (fun c => pyIn c allowed)

/-- Embeds `utils.call_weave` (utils.py:258-288): one attempt against the
store; on success the rows with status 200, on any exception an empty
DataFrame with status 500. -/
def call_weave (b : Backend) (query sort_by : Json) : List Row × Nat :=
  match b query sort_by with
  | .ok rows => (rows, 200)
  | .error _ => ([], 500)

/-- The session state `main.process_audio_file` leaves on success. -/
structure MainResult where
  required_columns : List Json
  final_query : Json
  sort_by_query : Json
  weave_response : List Row
  status_code : Nat
  deriving DecidableEq

/-- The column-selection prompt `process_audio_file` sends: the query, the
rendered description string of the first `columns.json` read, and the empty
string for `\x7b\x7bcolumns\x7d\x7d`. -/
def mainP1 (file : Nat → Catalog) (q : String) : Prompt :=
  ⟨.COLUMN_SELECTION_PROMPT, q, Json.str (get_fields_description (file 0)), Json.str ""⟩

/-- The filter-synthesis prompt `process_audio_file` sends, parameterized by
the validated column list. -/
def mainP2 (file : Nat → Catalog) (q : String) (required : List Json) : Prompt :=
  ⟨.QUERY_PROMPT, q, Json.str (get_fields_description (file 0)), Json.arr required⟩

/-- The sort-synthesis prompt `process_audio_file` sends. -/
def mainP3 (file : Nat → Catalog) (q : String) (required : List Json) : Prompt :=
  ⟨.SORT_BY_PROMPT, q, Json.str (get_fields_description (file 0)), Json.arr required⟩

/-- Embeds `main.process_audio_file` (main.py:139-191), after transcription:
render descriptions from the first `columns.json` read, select columns,
re-open `columns.json` and drop selected names not among its keys,
synthesize the filter and the sort specification from the validated list,
then execute via `call_weave`. Raised exceptions propagate as `Except`
errors; the `Effects` component logs file reads, prompts and store calls
made up to that point. -/
def process_audio_file (file : Nat → Catalog) (o : Oracle) (b : Backend)
    (q : String) : Except SynthesisError MainResult × Effects :=
  match genKey o (mainP1 file q) "columns" with
  | .error e => (.error e, ⟨1, [mainP1 file q], 0⟩)
  | .ok colsJson =>
    -- second open of columns.json, for the validation pass
    let allowed := (file 1).map Prod.fst
    match asArr colsJson with
    | .error e => (.error e, ⟨2, [mainP1 file q], 0⟩)
    | .ok cols =>
      let required := filterColumns cols allowed
      match genKey o (mainP2 file q required) "query" with
      | .error e => (.error e, ⟨2, [mainP1 file q, mainP2 file q required], 0⟩)
      | .ok final_query =>
        match genKey o (mainP3 file q required) "sort_by" with
        | .error e =>
          (.error e, ⟨2, [mainP1 file q, mainP2 file q required, mainP3 file q required], 0⟩)
        | .ok sort_by_query =>
          let wr := call_weave b final_query sort_by_query
          (.ok ⟨required, final_query, sort_by_query, wr.1, wr.2⟩,
           ⟨2, [mainP1 file q, mainP2 file q required, mainP3 file q required], 1⟩)

namespace Evals

/-- The test queries of `evals.py` (lines 34-45). -/
def user_queries : List String :=
  [ "models which has latency less than 100ms",
    "models which has accuracy greater than 90%",
    "models which has F1 score greater than 0.95",
    "models with precision above 0.85 and recall greater than 0.8",
    "models trained for more than 3 epochs with learning rate less than 0.001",
    "models where the model name contains 'gpt'",
    "models with generation time less than 200ms and accuracy above 0.85",
    "models with total tokens mean less than 500",
    "models where the warmup ratio is greater than 0.1",
    "models with true hallucination fraction less than 0.3" ]

/-- Shorthand for the `Convert`-wrapped field reference every numeric gold
comparison uses. -/
def convField (f : String) : Json :=
  .obj [("$convert", .obj [("input", .obj [("$getField", .str f)]), ("to", .str "double")])]

/-- The ground-truth filters of `evals.py` (lines 48-167), in order. -/
def gt_filters : List Json :=
  [ .obj [("$expr", .obj [("$lt",
      .arr [convField "output.model_latency.mean", .obj [("$literal", .num 100)]])])],
    .obj [("$expr", .obj [("$gt",
      .arr [convField "output.HalluScorerEvaluator.scorer_evaluation_metrics.accuracy",
            .obj [("$literal", .num 0.9)]])])],
    .obj [("$expr", .obj [("$gt",
      .arr [convField "output.HalluScorerEvaluator.scorer_evaluation_metrics.f1",
            .obj [("$literal", .num 0.95)]])])],
    .obj [("$expr", .obj [("$and", .arr [
      .obj [("$gt",
        .arr [convField "output.HalluScorerEvaluator.scorer_evaluation_metrics.precision",
              .obj [("$literal", .num 0.85)]])],
      .obj [("$gt",
        .arr [convField "output.HalluScorerEvaluator.scorer_evaluation_metrics.recall",
              .obj [("$literal", .num 0.8)]])]])])],
    .obj [("$expr", .obj [("$and", .arr [
      .obj [("$gt",
        .arr [convField "attributes.num_train_epochs", .obj [("$literal", .num 3)]])],
      .obj [("$not", .arr [.obj [("$gte",
        .arr [convField "attributes.learning_rate",
              .obj [("$literal", .num 0.001)]])]])]])])],
    .obj [("$expr", .obj [("$contains", .obj [
      ("input", .obj [("$getField", .str "attributes.model_name")]),
      ("substr", .obj [("$literal", .str "gpt")])])])],
    .obj [("$expr", .obj [("$and", .arr [
      .obj [("$not", .arr [.obj [("$gte",
        .arr [convField "output.model_output.generation_time.mean",
              .obj [("$literal", .num 200)]])]])],
      .obj [("$gt",
        .arr [convField "output.HalluScorerEvaluator.scorer_evaluation_metrics.accuracy",
              .obj [("$literal", .num 0.85)]])]])])],
    .obj [("$expr", .obj [("$not", .arr [.obj [("$gte",
      .arr [convField "output.model_output.total_tokens.mean",
            .obj [("$literal", .num 500)]])]])])],
    .obj [("$expr", .obj [("$gt",
      .arr [convField "attributes.warmup_ratio", .obj [("$literal", .num 0.1)]])])],
    .obj [("$expr", .obj [("$not", .arr [.obj [("$gte",
      .arr [convField "output.HalluScorerEvaluator.is_hallucination.true_fraction",
            .obj [("$literal", .num 0.3)]])]])])] ]

/-- One record of the labeled dataset `eval_dataset` (evals.py:170-181). -/
structure EvalRecord where
  id : String
  user_query : String
  gt_filter : Json
  deriving DecidableEq

/-- The labeled dataset of `evals.py` (lines 170-181): ids, queries and gold
filters zipped positionally. -/
def eval_dataset : List EvalRecord :=
  (List.range 10).map (fun i =>
    ⟨toString i, user_queries.getD i "", gt_filters.getD i (.str "")⟩)

/-- The dataset actually handed to `weave.Evaluation` (evals.py:259): only
the `user_query` of each record survives; the gold filters are dropped. -/
def evaluation_dataset : List String :=
  eval_dataset.map (fun r => r.user_query)

/-- The column-selection prompt the evaluation functions send: the raw
decoded `columns.json` dict stands for the description payload, and the
empty string for the columns slot. -/
def evalP1 (file : Nat → Catalog) (uq : String) : Prompt :=
  ⟨.COLUMN_SELECTION_PROMPT, uq, evals_get_fields_description (file 0), Json.str ""⟩

/-- The filter-synthesis prompt the evaluation functions send, carrying the
raw (unvalidated) value extracted from the selection response. -/
def evalP2 (file : Nat → Catalog) (uq : String) (cols : Json) : Prompt :=
  ⟨.QUERY_PROMPT, uq, evals_get_fields_description (file 1), cols⟩

/-- The two-step chain both `QueryEvalModel.predict` (evals.py:191-218) and
`query_accuracy_score` (evals.py:220-252) run verbatim: select columns with
the raw catalog dict as description payload, then synthesize the filter
from the raw selected value, with no validation pass in between.
`columns.json` is re-read before each of the two calls. -/
def resynthesize (file : Nat → Catalog) (o : Oracle) (uq : String) :
    Except SynthesisError Json × Effects :=
  match genKey o (evalP1 file uq) "columns" with
  | .error e => (.error e, ⟨1, [evalP1 file uq], 0⟩)
  | .ok cols =>
    match genKey o (evalP2 file uq cols) "query" with
    | .error e => (.error e, ⟨2, [evalP1 file uq, evalP2 file uq cols], 0⟩)
    | .ok qy => (.ok qy, ⟨2, [evalP1 file uq, evalP2 file uq cols], 0⟩)

/-- Embeds `QueryEvalModel.predict` (evals.py:191-218): run the two-step
chain and wrap the synthesized filter as a one-key object. -/
def predict (file : Nat → Catalog) (o : Oracle) (uq : String) :
    Except SynthesisError Json × Effects :=
  match resynthesize file o uq with
  | (.error e, eff) => (.error e, eff)
  | (.ok qy, eff) => (.ok (Json.obj [("query", qy)]), eff)

/-- Embeds `query_accuracy_score` (evals.py:220-252): re-run the same
two-step chain to obtain an expected filter, then compare it with the
model output's `query` entry; 1 on equality, 0 otherwise. The gold filters
are not consulted. -/
def query_accuracy_score (file : Nat → Catalog) (o : Oracle) (uq : String)
    (output : Json) : Except SynthesisError Nat × Effects :=
  match resynthesize file o uq with
  | (.error e, eff) => (.error e, eff)
  | (.ok expected, eff) =>
    match getKey output "query" with
    | .error e => (.error e, eff)
    | .ok oq => (.ok (if expected = oq then 1 else 0), eff)

end Evals

/-- Modelled from the spec: the aggregate score of an evaluation run is the
mean of the per-item scores (the averaging itself happens inside the
external `weave.Evaluation` framework, not in this repository's sources). -/
def mean_score (scores : List Rat) : Rat :=
  scores.sum / scores.length

mutual

/-- Does some object anywhere inside the value bind the key `op`?  Used to
check which operator nodes a filter expression contains. -/
def usesOp (j : Json) (op : String) : Bool :=
  match j with
  | .str _ => false
  | .num _ => false
  | .arr es => usesOpList es op
  | .obj fs => usesOpFields fs op

/-- Helper of `usesOp` for arrays. -/
def usesOpList (es : List Json) (op : String) : Bool :=
  match es with
  | [] => false
  | e :: rest => usesOp e op || usesOpList rest op

/-- Helper of `usesOp` for object field lists. -/
def usesOpFields (fs : List (String × Json)) (op : String) : Bool :=
  match fs with
  | [] => false
  | (k, v) :: rest => k == op || usesOp v op || usesOpFields rest op

end

/-! Helper lemmas shared by the claim theorems. -/

/-- The rendering block of one catalog entry. -/
def fieldBlock (p : String × String) : String :=
  "Column: " ++ p.1 ++ "\nDescription: " ++ p.2 ++ "\n\n"

/-- Shifting the accumulator out of the rendering fold. -/
theorem gfd_shift (l : Catalog) :
    ∀ acc : String,
      l.foldl (fun a p => a ++ "Column: " ++ p.1 ++ "\nDescription: " ++ p.2 ++ "\n\n") acc
        = acc ++ get_fields_description l := by
  induction l with
  | nil =>
    intro acc
    simp [get_fields_description, String.append_empty]
  | cons p rest ih =>
    intro acc
    have lhs : ((p :: rest).foldl
        (fun a q => a ++ "Column: " ++ q.1 ++ "\nDescription: " ++ q.2 ++ "\n\n") acc)
        = rest.foldl (fun a q => a ++ "Column: " ++ q.1 ++ "\nDescription: " ++ q.2 ++ "\n\n")
            (acc ++ "Column: " ++ p.1 ++ "\nDescription: " ++ p.2 ++ "\n\n") := rfl
    rw [lhs, ih]
    have rhs : get_fields_description (p :: rest)
        = rest.foldl (fun a q => a ++ "Column: " ++ q.1 ++ "\nDescription: " ++ q.2 ++ "\n\n")
            ("" ++ "Column: " ++ p.1 ++ "\nDescription: " ++ p.2 ++ "\n\n") := rfl
    rw [rhs, ih]
    simp [String.append_assoc, String.empty_append]

/-- Python membership of a decoded value in the allowed key list. -/
theorem pyIn_iff (c : Json) (allowed : List String) :
    pyIn c allowed = true ↔ ∃ a ∈ allowed, c = Json.str a := by
  simp [pyIn, List.any_eq_true]

/-- The mean of a 0/1 score list is the fraction of exact matches. -/
theorem mean_score_count (bs : List Bool) :
    mean_score (bs.map (fun b => if b then (1 : Rat) else 0))
      = (bs.count true : Rat) / bs.length := by
  unfold mean_score
  induction bs with
  | nil => simp
  | cons b rest ih =>
    rcases Nat.eq_zero_or_pos rest.length with h0 | hpos
    · rw [List.length_eq_zero] at h0
      subst h0
      cases b <;> simp [List.count_cons]
    · have hne : ((rest.length : Rat)) ≠ 0 := by
        exact_mod_cast Nat.pos_iff_ne_zero.mp hpos
      have hsum : (rest.map (fun b => if b then (1 : Rat) else 0)).sum
          = (rest.count true : Rat) := by
        have := ih
        field_simp at this
        simpa using this
      cases b
      · simp [List.count_cons, hsum, List.sum_cons]
      · simp [List.count_cons, hsum, List.sum_cons]
        ring

/-- Inversion of a successful run of the embedded `process_audio_file`:
success determines every intermediate step and the effect log. -/
theorem process_audio_file_ok_inv (f : Nat → Catalog) (o : Oracle) (b : Backend)
    (q : String) (r : MainResult) (eff : Effects)
    (h : process_audio_file f o b q = (.ok r, eff)) :
    ∃ colsJson cols,
      genKey o (mainP1 f q) "columns" = .ok colsJson
      ∧ asArr colsJson = .ok cols
      ∧ genKey o (mainP2 f q (filterColumns cols ((f 1).map Prod.fst))) "query"
          = .ok r.final_query
      ∧ genKey o (mainP3 f q (filterColumns cols ((f 1).map Prod.fst))) "sort_by"
          = .ok r.sort_by_query
      ∧ r.required_columns = filterColumns cols ((f 1).map Prod.fst)
      ∧ r.weave_response = (call_weave b r.final_query r.sort_by_query).1
      ∧ r.status_code = (call_weave b r.final_query r.sort_by_query).2
      ∧ eff = ⟨2, [mainP1 f q, mainP2 f q r.required_columns,
                   mainP3 f q r.required_columns], 1⟩ := by
  cases hg : genKey o (mainP1 f q) "columns" with
  | error e => simp [process_audio_file, hg] at h
  | ok colsJson =>
    cases ha : asArr colsJson with
    | error e => simp [process_audio_file, hg, ha] at h
    | ok cols =>
      cases h2 : genKey o (mainP2 f q (filterColumns cols ((f 1).map Prod.fst))) "query" with
      | error e => simp [process_audio_file, hg, ha, h2] at h
      | ok fq =>
        cases h3 : genKey o (mainP3 f q (filterColumns cols ((f 1).map Prod.fst))) "sort_by" with
        | error e => simp [process_audio_file, hg, ha, h2, h3] at h
        | ok sq =>
          simp only [process_audio_file, hg, ha, h2, h3] at h
          rw [Prod.mk.injEq] at h
          obtain ⟨hr, heff⟩ := h
          injection hr with hr
          subst hr
          subst heff
          exact ⟨colsJson, cols, rfl, ha, h2, h3, rfl, rfl, rfl, rfl⟩

/-- Inversion of a successful run of the evaluation two-step chain. -/
theorem resynthesize_ok_inv (f : Nat → Catalog) (o : Oracle) (uq : String)
    (j : Json) (eff : Effects)
    (h : Evals.resynthesize f o uq = (.ok j, eff)) :
    ∃ cols,
      genKey o (Evals.evalP1 f uq) "columns" = .ok cols
      ∧ genKey o (Evals.evalP2 f uq cols) "query" = .ok j
      ∧ eff = ⟨2, [Evals.evalP1 f uq, Evals.evalP2 f uq cols], 0⟩ := by
  cases hg : genKey o (Evals.evalP1 f uq) "columns" with
  | error e => simp [Evals.resynthesize, hg] at h
  | ok cols =>
    cases h2 : genKey o (Evals.evalP2 f uq cols) "query" with
    | error e => simp [Evals.resynthesize, hg, h2] at h
    | ok qy =>
      simp only [Evals.resynthesize, hg, h2] at h
      rw [Prod.mk.injEq] at h
      obtain ⟨hr, heff⟩ := h
      injection hr with hr
      subst hr
      subst heff
      exact ⟨cols, rfl, h2, rfl⟩

/-! Claim theorems. -/

/-- C4 (counterexample): the catalog description operation does not render
`Field: ...` blocks: on the one-entry catalog `[("a", "b")]` it renders
`Column: a`, not `Field: a`. -/
theorem c4_counterexample_column_not_field :
    get_fields_description [("a", "b")] = "Column: a\nDescription: b\n\n"
    ∧ get_fields_description [("a", "b")] ≠ "Field: a\nDescription: b\n\n" := by
  constructor
  · rfl
  · decide

/-- C4 (amended): the catalog description operation renders, for each
catalog entry in catalog iteration order, exactly the block
`Column: {name}\nDescription: {description}\n\n` (the block label is
`Column:`, not `Field:`), and its output is a function of the catalog
contents alone. -/
theorem c4_catalog_description_blocks (name desc : String) (rest : Catalog) :
    get_fields_description ((name, desc) :: rest)
      = "Column: " ++ name ++ "\nDescription: " ++ desc ++ "\n\n"
          ++ get_fields_description rest
    ∧ get_fields_description ([] : Catalog) = "" := by
  refine ⟨?_, rfl⟩
  have h1 : get_fields_description ((name, desc) :: rest)
      = rest.foldl (fun a p => a ++ "Column: " ++ p.1 ++ "\nDescription: " ++ p.2 ++ "\n\n")
          ("" ++ "Column: " ++ name ++ "\nDescription: " ++ desc ++ "\n\n") := rfl
  rw [h1, gfd_shift]
  simp [String.empty_append, String.append_assoc]

/-- C5: the post-hoc validation pass keeps, in their original relative
order, exactly those selected names that are keys of the Field Catalog;
every other value is dropped silently (the pass is a total function, it
raises nothing), so every name reaching the synthesis steps is a catalog
key. -/
theorem c5_validation_pass (cols : List Json) (catalog : Catalog) :
    (filterColumns cols (catalog.map Prod.fst)).Sublist cols
    ∧ (∀ c ∈ filterColumns cols (catalog.map Prod.fst),
        ∃ name ∈ catalog.map Prod.fst, c = Json.str name)
    ∧ (∀ c ∈ cols,
        (c ∈ filterColumns cols (catalog.map Prod.fst)
          ↔ ∃ name ∈ catalog.map Prod.fst, c = Json.str name)) := by
  refine ⟨List.filter_sublist _, ?_, ?_⟩
  · intro c hc
    rw [filterColumns, List.mem_filter] at hc
    exact (pyIn_iff c _).mp hc.2
  · intro c hc
    simp only [filterColumns, List.mem_filter, hc, true_and]
    exact pyIn_iff c _

/-- C7: the query execution adapter is a total function: on backend success
it returns the fetched rows with status 200, on any backend failure it
returns an empty table with status 500, and the status alone separates the
two cases, so a failure is always distinguishable from a successful
zero-row result. -/
theorem c7_call_weave_status (b : Backend) (q s : Json) :
    ((call_weave b q s).2 = 200 ∨ (call_weave b q s).2 = 500)
    ∧ ((call_weave b q s).2 = 200
        ↔ ∃ rows, b q s = .ok rows ∧ (call_weave b q s).1 = rows)
    ∧ ((call_weave b q s).2 = 500
        ↔ (∃ msg, b q s = .error msg) ∧ (call_weave b q s).1 = []) := by
  cases hb : b q s <;> simp [call_weave, hb]

/-- C3: the gold fixture for "models which has latency less than 100ms"
(dataset item 0) contains a native `$lt` node and no `$not`/`$gte` pair,
while the other gold fixtures with less-than conditions (items 4, 6, 7, 9)
express them with `$not` and no `$lt` — item 0 contradicts the grammar the
claim and the prompt establish. -/
theorem c3_gold_fixture_zero_uses_lt :
    usesOp (Evals.gt_filters.getD 0 (Json.str "")) "$lt" = true
    ∧ usesOp (Evals.gt_filters.getD 0 (Json.str "")) "$not" = false
    ∧ usesOp (Evals.gt_filters.getD 0 (Json.str "")) "$gte" = false
    ∧ (Evals.eval_dataset.getD 0 ⟨"", "", Json.str ""⟩).user_query
        = "models which has latency less than 100ms"
    ∧ (Evals.eval_dataset.getD 0 ⟨"", "", Json.str ""⟩).gt_filter
        = Evals.gt_filters.getD 0 (Json.str "")
    ∧ usesOp (Evals.gt_filters.getD 4 (Json.str "")) "$lt" = false
    ∧ usesOp (Evals.gt_filters.getD 4 (Json.str "")) "$not" = true
    ∧ usesOp (Evals.gt_filters.getD 6 (Json.str "")) "$lt" = false
    ∧ usesOp (Evals.gt_filters.getD 6 (Json.str "")) "$not" = true
    ∧ usesOp (Evals.gt_filters.getD 7 (Json.str "")) "$lt" = false
    ∧ usesOp (Evals.gt_filters.getD 7 (Json.str "")) "$not" = true
    ∧ usesOp (Evals.gt_filters.getD 9 (Json.str "")) "$lt" = false
    ∧ usesOp (Evals.gt_filters.getD 9 (Json.str "")) "$not" = true := by
  decide

/-! Concrete fixtures used by the counterexamples and witnesses. -/

/-- Field path used by the concrete runs below. -/
def latencyField : String := "output.model_latency.mean"

/-- A one-entry catalog holding the latency field. -/
def testCatalog : Catalog := [(latencyField, "Average model latency in ms")]

/-- The `Not(Gte)` filter shape the grammar prescribes for
"latency less than 100". -/
def notGteLatency : Json :=
  .obj [("$expr", .obj [("$not", .arr [.obj [("$gte",
    .arr [Evals.convField latencyField, .obj [("$literal", .num 100)]])]])])]

/-- A generation service that selects the latency field and synthesizes the
grammar-conformant `Not(Gte)` filter. -/
def oracleGood : Oracle := fun p =>
  match p.template with
  | .COLUMN_SELECTION_PROMPT => .parsed (.obj [("columns", .arr [.str latencyField])])
  | .QUERY_PROMPT => .parsed (.obj [("query", notGteLatency)])
  | .SORT_BY_PROMPT => .parsed (.obj [("sort_by", .arr [])])

/-- A generation service that hallucinates a field name absent from the
catalog, and whose filter synthesis depends on the columns slot of the
prompt it receives. -/
def oracleHallucinate : Oracle := fun p =>
  match p.template, p.columns with
  | .COLUMN_SELECTION_PROMPT, _ => .parsed (.obj [("columns", .arr [.str "bogus"])])
  | .QUERY_PROMPT, .arr [] => .parsed (.obj [("query", .str "FB")])
  | .QUERY_PROMPT, _ => .parsed (.obj [("query", .str "FA")])
  | .SORT_BY_PROMPT, _ => .parsed (.obj [("sort_by", .arr [])])

/-- A generation service whose selected field is dropped entirely by
validation. -/
def oracleDrop : Oracle := fun p =>
  match p.template with
  | .COLUMN_SELECTION_PROMPT => .parsed (.obj [("columns", .arr [.str "bogus"])])
  | .QUERY_PROMPT => .parsed (.obj [("query", .str "Q")])
  | .SORT_BY_PROMPT => .parsed (.obj [("sort_by", .arr [])])

/-- A backing store that always succeeds with zero rows. -/
def backendEmpty : Backend := fun _ _ => .ok []

/-- File contents that change between the first and second open of
`columns.json`. -/
def fileDrift : Nat → Catalog := fun k => if k = 0 then testCatalog else []

/-- File contents that stay the same on every open. -/
def fileConst : Nat → Catalog := fun _ => testCatalog

/-- C6: an empty validated field set is not a failure: when the selection
response validates to the empty list, the filter-synthesis and
sort-synthesis prompts are still sent (with the empty column list) and the
store is still called — the pipeline runs to completion instead of
aborting. -/
theorem c6_empty_validated_set_still_runs (f : Nat → Catalog) (o : Oracle)
    (b : Backend) (q : String) (colsJson : Json) (cols : List Json) (fq sq : Json)
    (h1 : genKey o (mainP1 f q) "columns" = .ok colsJson)
    (h2 : asArr colsJson = .ok cols)
    (h3 : filterColumns cols ((f 1).map Prod.fst) = [])
    (h4 : genKey o (mainP2 f q []) "query" = .ok fq)
    (h5 : genKey o (mainP3 f q []) "sort_by" = .ok sq) :
    process_audio_file f o b q
      = (.ok ⟨[], fq, sq, (call_weave b fq sq).1, (call_weave b fq sq).2⟩,
         ⟨2, [mainP1 f q, mainP2 f q [], mainP3 f q []], 1⟩) := by
  simp [process_audio_file, h1, h2, h3, h4, h5]

/-- C6 witness: a concrete run whose selected field is dropped by
validation still synthesizes, sorts and executes on the empty set. -/
theorem c6_witness :
    process_audio_file fileConst oracleDrop backendEmpty "q0"
      = (.ok ⟨[], .str "Q", .arr [],
              (call_weave backendEmpty (.str "Q") (.arr [])).1,
              (call_weave backendEmpty (.str "Q") (.arr [])).2⟩,
         ⟨2, [mainP1 fileConst "q0", mainP2 fileConst "q0" [],
              mainP3 fileConst "q0" []], 1⟩) :=
  c6_empty_validated_set_still_runs fileConst oracleDrop backendEmpty "q0"
    (.arr [.str "bogus"]) [.str "bogus"] (.str "Q") (.arr [])
    (by decide) (by decide) (by decide) (by decide) (by decide)

/-- C8: a generation-service response that is not valid JSON surfaces as the
`notJson` error and one whose object lacks the step's expected key surfaces
as `missingKey`; whichever synthesis step fails, the pipeline returns that
error to the caller (it is a value, not a crash), never calls the store,
and never repairs or retries — the prompt log is always a prefix of the
three distinct step prompts. -/
theorem c8_synthesis_errors_surfaced (f : Nat → Catalog) (o : Oracle)
    (b : Backend) (q : String) :
    (∀ p k, o p = .invalid → genKey o p k = .error .notJson)
    ∧ (∀ p k fs, o p = .parsed (Json.obj fs) → lookupKey fs k = none
        → genKey o p k = .error (.missingKey k))
    ∧ (∀ e, genKey o (mainP1 f q) "columns" = .error e
        → process_audio_file f o b q = (.error e, ⟨1, [mainP1 f q], 0⟩))
    ∧ (∀ colsJson cols e,
        genKey o (mainP1 f q) "columns" = .ok colsJson
        → asArr colsJson = .ok cols
        → genKey o (mainP2 f q (filterColumns cols ((f 1).map Prod.fst))) "query"
            = .error e
        → process_audio_file f o b q
            = (.error e, ⟨2, [mainP1 f q,
                mainP2 f q (filterColumns cols ((f 1).map Prod.fst))], 0⟩))
    ∧ (∀ colsJson cols fq e,
        genKey o (mainP1 f q) "columns" = .ok colsJson
        → asArr colsJson = .ok cols
        → genKey o (mainP2 f q (filterColumns cols ((f 1).map Prod.fst))) "query"
            = .ok fq
        → genKey o (mainP3 f q (filterColumns cols ((f 1).map Prod.fst))) "sort_by"
            = .error e
        → process_audio_file f o b q
            = (.error e, ⟨2, [mainP1 f q,
                mainP2 f q (filterColumns cols ((f 1).map Prod.fst)),
                mainP3 f q (filterColumns cols ((f 1).map Prod.fst))], 0⟩))
    ∧ (∀ e, (process_audio_file f o b q).1 = .error e
        → (process_audio_file f o b q).2.weaveCalls = 0
          ∧ ∃ n, n ≤ 3
            ∧ ((process_audio_file f o b q).2.prompts).map Prompt.template
                = [PromptTemplate.COLUMN_SELECTION_PROMPT, PromptTemplate.QUERY_PROMPT,
                   PromptTemplate.SORT_BY_PROMPT].take n) := by
  refine ⟨?_, ?_, ?_, ?_, ?_, ?_⟩
  · intro p k h
    simp [genKey, h]
  · intro p k fs h hk
    simp [genKey, getKey, h, hk]
  · intro e h
    simp [process_audio_file, h]
  · intro colsJson cols e h1 h2 h3
    simp [process_audio_file, h1, h2, h3]
  · intro colsJson cols fq e h1 h2 h3 h4
    simp [process_audio_file, h1, h2, h3, h4]
  · intro e he
    cases hg : genKey o (mainP1 f q) "columns" with
    | error e1 =>
      have hres : process_audio_file f o b q = (.error e1, ⟨1, [mainP1 f q], 0⟩) := by
        simp [process_audio_file, hg]
      refine ⟨by rw [hres], 1, by omega, ?_⟩
      rw [hres]
      simp [mainP1]
    | ok colsJson =>
      cases ha : asArr colsJson with
      | error e2 =>
        have hres : process_audio_file f o b q = (.error e2, ⟨2, [mainP1 f q], 0⟩) := by
          simp [process_audio_file, hg, ha]
        refine ⟨by rw [hres], 1, by omega, ?_⟩
        rw [hres]
        simp [mainP1]
      | ok cols =>
        cases h2 : genKey o (mainP2 f q (filterColumns cols ((f 1).map Prod.fst)))
            "query" with
        | error e3 =>
          have hres : process_audio_file f o b q
              = (.error e3, ⟨2, [mainP1 f q,
                  mainP2 f q (filterColumns cols ((f 1).map Prod.fst))], 0⟩) := by
            simp [process_audio_file, hg, ha, h2]
          refine ⟨by rw [hres], 2, by omega, ?_⟩
          rw [hres]
          simp [mainP1, mainP2]
        | ok fq =>
          cases h3 : genKey o (mainP3 f q (filterColumns cols ((f 1).map Prod.fst)))
              "sort_by" with
          | error e4 =>
            have hres : process_audio_file f o b q
                = (.error e4, ⟨2, [mainP1 f q,
                    mainP2 f q (filterColumns cols ((f 1).map Prod.fst)),
                    mainP3 f q (filterColumns cols ((f 1).map Prod.fst))], 0⟩) := by
              simp [process_audio_file, hg, ha, h2, h3]
            refine ⟨by rw [hres], 3, by omega, ?_⟩
            rw [hres]
            simp [mainP1, mainP2, mainP3]
          | ok sq =>
            exfalso
            simp [process_audio_file, hg, ha, h2, h3] at he

/-- C9 (counterexample): the Field Catalog is not loaded once and read from
memory: the pipeline re-opens `columns.json`, and its output depends on the
file contents at the second open.  Two file histories agreeing at startup
(first open) but differing at the second open validate the same selection
differently, and a successful run opens the file twice, not once. -/
theorem c9_counterexample_catalog_reloaded :
    fileDrift 0 = fileConst 0
    ∧ ((process_audio_file fileDrift oracleGood backendEmpty "q").1.map
        (fun r => r.required_columns)) = .ok []
    ∧ ((process_audio_file fileConst oracleGood backendEmpty "q").1.map
        (fun r => r.required_columns)) = .ok [.str latencyField]
    ∧ (process_audio_file fileConst oracleGood backendEmpty "q").2.fileReads = 2 := by
  refine ⟨rfl, by decide, by decide, by decide⟩

/-- C9 (amended): `columns.json` is re-read on each use rather than loaded
once at startup: every successful query run of the application pipeline
opens the file exactly twice (descriptions, then validation), and every
successful run of the evaluation two-step chain opens it twice again. -/
theorem c9_catalog_reread_each_use (f : Nat → Catalog) (o : Oracle)
    (b : Backend) (q : String) (r : MainResult) (eff : Effects)
    (h : process_audio_file f o b q = (.ok r, eff)) :
    eff.fileReads = 2
    ∧ (∀ uq j eff2, Evals.resynthesize f o uq = (.ok j, eff2)
        → eff2.fileReads = 2) := by
  obtain ⟨colsJson, cols, -, -, -, -, -, -, -, heff⟩ :=
    process_audio_file_ok_inv f o b q r eff h
  constructor
  · rw [heff]
  · intro uq j eff2 h2
    obtain ⟨cols2, -, -, heff2⟩ := resynthesize_ok_inv f o uq j eff2 h2
    rw [heff2]

/-- C9 witness: a concrete successful run reads `columns.json` twice in the
application pipeline and twice in the evaluation chain. -/
theorem c9_witness :
    (⟨2, [mainP1 fileConst "q",
          mainP2 fileConst "q" [.str latencyField],
          mainP3 fileConst "q" [.str latencyField]], 1⟩ : Effects).fileReads = 2
    ∧ (∀ uq j eff2, Evals.resynthesize fileConst oracleGood uq = (.ok j, eff2)
        → eff2.fileReads = 2) :=
  c9_catalog_reread_each_use fileConst oracleGood backendEmpty "q"
    ⟨[.str latencyField], notGteLatency, .arr [],
     (call_weave backendEmpty notGteLatency (.arr [])).1,
     (call_weave backendEmpty notGteLatency (.arr [])).2⟩
    ⟨2, [mainP1 fileConst "q",
         mainP2 fileConst "q" [.str latencyField],
         mainP3 fileConst "q" [.str latencyField]], 1⟩
    (by decide)

/-- C10: when the generation service is a deterministic function of the
rendered prompt, the scorer re-runs exactly the two-step chain of the
prediction step and compares against its own re-synthesis, so every query
whose prediction succeeds scores accuracy 1, whatever the gold filters
say. -/
theorem c10_deterministic_accuracy_one (f : Nat → Catalog) (o : Oracle)
    (uq : String) (out : Json) (eff : Effects)
    (h : Evals.predict f o uq = (.ok out, eff)) :
    (Evals.query_accuracy_score f o uq out).1 = .ok 1 := by
  cases hr : Evals.resynthesize f o uq with
  | mk res eff' =>
    cases res with
    | error e => simp [Evals.predict, hr] at h
    | ok qy =>
      simp only [Evals.predict, hr] at h
      rw [Prod.mk.injEq] at h
      obtain ⟨hout, heff⟩ := h
      injection hout with hout
      subst hout
      simp [Evals.query_accuracy_score, hr, getKey, lookupKey]

/-- C10 witness: a concrete deterministic service scores accuracy 1. -/
theorem c10_witness :
    (Evals.query_accuracy_score fileConst oracleGood "q"
      (.obj [("query", notGteLatency)])).1 = .ok 1 :=
  c10_deterministic_accuracy_one fileConst oracleGood "q"
    (.obj [("query", notGteLatency)])
    ⟨2, [Evals.evalP1 fileConst "q",
         Evals.evalP2 fileConst "q" (.arr [.str latencyField])], 0⟩
    (by decide)

/-- C1 (counterexample): the harness does not score against the gold
filter: for evaluation item 0 a deterministic service synthesizes the
grammar-conformant `Not(Gte)` filter, which differs structurally from the
item's gold filter (a native `$lt`), yet the scorer returns 1. -/
theorem c1_counterexample_score_ignores_gold :
    (Evals.predict (fun _ => testCatalog) oracleGood
        (Evals.user_queries.getD 0 "")).1
      = .ok (.obj [("query", notGteLatency)])
    ∧ (Evals.query_accuracy_score (fun _ => testCatalog) oracleGood
        (Evals.user_queries.getD 0 "") (.obj [("query", notGteLatency)])).1
      = .ok 1
    ∧ notGteLatency ≠ (Evals.eval_dataset.getD 0 ⟨"", "", .str ""⟩).gt_filter := by
  refine ⟨by decide, by decide, by decide⟩

/-- C1 (amended): the harness scores each item by comparing the predicted
filter against a second filter re-synthesized by the same two-step
pipeline at scoring time — not against the item's gold filter, which is
dropped when the dataset is handed to the evaluation framework — scoring 1
on exact structural equality and 0 otherwise, and the aggregate (computed
by the external framework) is the mean of the per-item scores, i.e. the
fraction of exact matches. -/
theorem c1_score_compares_resynthesis (f : Nat → Catalog) (o : Oracle)
    (uq : String) (output expected oq : Json) (eff : Effects)
    (h1 : Evals.resynthesize f o uq = (.ok expected, eff))
    (h2 : getKey output "query" = .ok oq) :
    (Evals.query_accuracy_score f o uq output).1
        = .ok (if expected = oq then 1 else 0)
    ∧ Evals.evaluation_dataset = Evals.user_queries
    ∧ (∀ bs : List Bool,
        mean_score (bs.map (fun m => if m then (1 : Rat) else 0))
          = (bs.count true : Rat) / bs.length) := by
  refine ⟨?_, by decide, fun bs => mean_score_count bs⟩
  simp [Evals.query_accuracy_score, h1, h2]

/-- C1 witness: the amended scoring semantics evaluated on a concrete
deterministic service. -/
theorem c1_witness :
    (Evals.query_accuracy_score fileConst oracleGood "q"
        (.obj [("query", notGteLatency)])).1
      = .ok (if notGteLatency = notGteLatency then 1 else 0)
    ∧ Evals.evaluation_dataset = Evals.user_queries
    ∧ (∀ bs : List Bool,
        mean_score (bs.map (fun m => if m then (1 : Rat) else 0))
          = (bs.count true : Rat) / bs.length) :=
  c1_score_compares_resynthesis fileConst oracleGood "q"
    (.obj [("query", notGteLatency)]) notGteLatency notGteLatency
    ⟨2, [Evals.evalP1 fileConst "q",
         Evals.evalP2 fileConst "q" (.arr [.str latencyField])], 0⟩
    (by decide) (by decide)

/-- C2 (counterexample): the harness's prediction step does not validate
the selected fields: with a service that hallucinates a field name absent
from the catalog and whose synthesis depends on the columns it is shown,
the application validates the selection away and synthesizes from the
empty list while the harness synthesizes from the raw hallucinated list —
the two filters differ. -/
theorem c2_counterexample_predict_differs_from_app :
    ((process_audio_file fileConst oracleHallucinate backendEmpty "q").1.map
        (fun r => r.required_columns)) = .ok []
    ∧ ((process_audio_file fileConst oracleHallucinate backendEmpty "q").1.map
        (fun r => r.final_query)) = .ok (.str "FB")
    ∧ (Evals.predict fileConst oracleHallucinate "q").1
        = .ok (.obj [("query", .str "FA")])
    ∧ (Json.str "FA") ≠ (Json.str "FB") := by
  refine ⟨by decide, by decide, by decide, by decide⟩

/-- C2 (amended): the harness's prediction step re-runs field selection and
filter synthesis but omits the validation pass: whatever value the
selection step returns is passed unvalidated (and the raw catalog mapping,
not the rendered description string) into the synthesis prompt, so the
harness agrees with the application only when these differences do not
change the service's responses. -/
theorem c2_predict_synthesizes_unvalidated (f : Nat → Catalog) (o : Oracle)
    (uq : String) (cols : Json)
    (h : genKey o (Evals.evalP1 f uq) "columns" = .ok cols) :
    (Evals.predict f o uq
      = match genKey o (Evals.evalP2 f uq cols) "query" with
        | .error e => (.error e, ⟨2, [Evals.evalP1 f uq, Evals.evalP2 f uq cols], 0⟩)
        | .ok qy => (.ok (Json.obj [("query", qy)]),
                     ⟨2, [Evals.evalP1 f uq, Evals.evalP2 f uq cols], 0⟩))
    ∧ (Evals.evalP2 f uq cols).columns = cols
    ∧ (Evals.evalP2 f uq cols).columns_with_description
        = evals_get_fields_description (f 1) := by
  refine ⟨?_, rfl, rfl⟩
  cases h2 : genKey o (Evals.evalP2 f uq cols) "query" with
  | error e => simp [Evals.predict, Evals.resynthesize, h, h2]
  | ok qy => simp [Evals.predict, Evals.resynthesize, h, h2]

/-- C2 witness: the unvalidated synthesis behaviour evaluated on the
hallucinating service. -/
theorem c2_witness :
    (Evals.predict fileConst oracleHallucinate "q"
      = match genKey oracleHallucinate
            (Evals.evalP2 fileConst "q" (.arr [.str "bogus"])) "query" with
        | .error e => (.error e, ⟨2, [Evals.evalP1 fileConst "q",
                       Evals.evalP2 fileConst "q" (.arr [.str "bogus"])], 0⟩)
        | .ok qy => (.ok (Json.obj [("query", qy)]),
                     ⟨2, [Evals.evalP1 fileConst "q",
                      Evals.evalP2 fileConst "q" (.arr [.str "bogus"])], 0⟩))
    ∧ (Evals.evalP2 fileConst "q" (.arr [.str "bogus"])).columns
        = .arr [.str "bogus"]
    ∧ (Evals.evalP2 fileConst "q" (.arr [.str "bogus"])).columns_with_description
        = evals_get_fields_description (fileConst 1) :=
  c2_predict_synthesizes_unvalidated fileConst oracleHallucinate "q"
    (.arr [.str "bogus"]) (by decide)
